import Mathlib

/-!
Shallow embedding of the dkglib DKG coordinators (on-chain and off-chain) and
proofs about them. Pure data is modelled directly; the external dealer, the
chain RPC and the broadcast pipe are modelled as explicit outcome parameters,
so every coordinator operation becomes a pure function of its state and of
the outcomes of the calls it makes.
-/

namespace Dkg

/-- Opaque handle standing for a dkgtypes.Verifier value. -/
abbrev Verifier := Nat

/-- Opaque handle standing for a tmtypes.Validator value. -/
abbrev Validator := Nat

/-- The seven ordered DKG phase message types (alias.DKGDataType). -/
inductive DKGDataType
  | pubKey
  | deal
  | response
  | justification
  | commits
  | complaint
  | reconstructCommit
  deriving DecidableEq

/-- A DKG phase message (alias.DKGData): the tag, the round id, the sender
address and the signature; the cryptographic payload is not inspected by the
coordinators and is omitted. -/
structure DKGData where
  type : DKGDataType
  roundID : Int
  addr : Nat
  signature : Nat
  deriving DecidableEq

/-- Outcome of dealer.GetVerifier: the verifier, the sentinel
ErrDKGVerifierNotReady, or another error (kept abstract as a number). -/
inductive GetVerifierErr
  | notReady
  | other (e : Nat)
  deriving DecidableEq

/-- Shallow embedding of the dealer.Dealer interface: the outcome each dealer
method would produce when the coordinator calls it. Errors are abstract
numbers, none meaning a nil error. -/
structure Dealer where
  start : Option Nat
  verifyMessage : DKGData → Option Nat
  handleDKGPubKey : DKGData → Option Nat
  handleDKGDeal : DKGData → Option Nat
  handleDKGResponse : DKGData → Option Nat
  handleDKGJustification : DKGData → Option Nat
  handleDKGCommit : DKGData → Option Nat
  handleDKGComplaint : DKGData → Option Nat
  handleDKGReconstructCommit : DKGData → Option Nat
  getVerifier : Except GetVerifierErr Verifier
  getLosers : List Validator

/-- Errors returned by the coordinators, one constructor per fmt.Errorf
wrapping in the source; the wrapped cause is kept. -/
inductive DKGErr
  | getMessagesFailed (e : Nat)
  | handleFailed (e : Nat)
  | roundFailed (e : Nat)
  | validateBasicFailed (e : Nat)
  | broadcastFailed (e : Nat)
  deriving DecidableEq

/-- Go test err != ErrDKGVerifierNotReady applied to a failed GetVerifier. -/
def isFatalVerifierErr : Except GetVerifierErr Verifier → Bool
  | Except.error (GetVerifierErr.other _) => true
  | _ => false

/-! ## On-chain coordinator (OnChainDKG) -/

/-- The query environment of the on-chain coordinator: for each data type, the
decoded result of the custom/randapp/dkgData query (query or decode failure as
an abstract error). -/
abbrev Queries := DKGDataType → Except Nat (List DKGData)

/-- The switch inside OnChainDKG.ProcessBlock that selects the dealer handler
for a data type. -/
def selectHandler (d : Dealer) : DKGDataType → DKGData → Option Nat
  | DKGDataType.pubKey => d.handleDKGPubKey
  | DKGDataType.deal => d.handleDKGDeal
  | DKGDataType.response => d.handleDKGResponse
  | DKGDataType.justification => d.handleDKGJustification
  | DKGDataType.commits => d.handleDKGCommit
  | DKGDataType.complaint => d.handleDKGComplaint
  | DKGDataType.reconstructCommit => d.handleDKGReconstructCommit

/-- The fixed bucket order iterated by OnChainDKG.ProcessBlock, as listed in
its source. -/
def typesList : List DKGDataType :=
  [DKGDataType.pubKey, DKGDataType.deal, DKGDataType.response,
   DKGDataType.justification, DKGDataType.commits, DKGDataType.complaint,
   DKGDataType.reconstructCommit]

/-- The inner message loop of ProcessBlock for one bucket: dispatch each
message to the given handler, stopping at the first handler error. The second
component records the messages actually dispatched, in order. -/
def handleMsgs (handler : DKGData → Option Nat) :
    List DKGData → Option Nat × List DKGData
  | [] => (none, [])
  | m :: ms =>
    match handler m with
    | some e => (some e, [m])
    | none =>
      match handleMsgs handler ms with
      | (r, tr) => (r, m :: tr)

/-- The bucket loop of OnChainDKG.ProcessBlock over a list of data types: for
each type, query the chain, dispatch every fetched message, and stop at the
first query or handler error. Returns the first wrapped error, if any, and the
trace of dispatched messages paired with their bucket. -/
def processTypes (d : Dealer) (q : Queries) :
    List DKGDataType → Option DKGErr × List (DKGDataType × DKGData)
  | [] => (none, [])
  | t :: ts =>
    match q t with
    | Except.error e => (some (DKGErr.getMessagesFailed e), [])
    | Except.ok msgs =>
      match handleMsgs (selectHandler d t) msgs with
      | (some e, tr) => (some (DKGErr.handleFailed e), tr.map (fun m => (t, m)))
      | (none, tr) =>
        match processTypes d q ts with
        | (r, tr2) => (r, tr.map (fun m => (t, m)) ++ tr2)

/-- OnChainDKG.ProcessBlock: iterate the seven buckets of typesList, then
consult dealer.GetVerifier. The first component is the returned pair
(error, done); the second the trace of dispatched messages. -/
def ProcessBlock (d : Dealer) (q : Queries) :
    (Option DKGErr × Bool) × List (DKGDataType × DKGData) :=
  match processTypes d q typesList with
  | (some e, tr) => ((some e, false), tr)
  | (none, tr) =>
    match d.getVerifier with
    | Except.error GetVerifierErr.notReady => ((none, false), tr)
    | Except.error (GetVerifierErr.other e) => ((some (DKGErr.roundFailed e), false), tr)
    | Except.ok _ => ((none, true), tr)

/-- The tx builder state relevant to OnChainDKG.sendMsg; both counters are
uint64 in the source. -/
structure TxBuilder where
  accountNumber : Nat
  sequence : Nat
  deriving DecidableEq

/-- Size of the uint64 value space. -/
def UINT64 : Nat := 2 ^ 64

/-- Observable outcome of OnChainDKG.sendMsg: the builder left in the
coordinator, whether GenerateOrBroadcastMsgs was invoked, and the returned
error, if any. -/
structure SendMsgResult where
  txBldr : TxBuilder
  broadcastAttempted : Bool
  err : Option DKGErr
  deriving DecidableEq

/-- OnChainDKG.sendMsg: validate the message; on success broadcast it and
replace the builder with a copy whose sequence is incremented (uint64
arithmetic), then surface the broadcast error, if any. The validateBasic and
broadcast arguments carry the outcomes of msg.ValidateBasic and of
utils.GenerateOrBroadcastMsgs. -/
def sendMsg (txBldr : TxBuilder) (validateBasic : Option Nat)
    (broadcast : Option Nat) : SendMsgResult :=
  match validateBasic with
  | some e =>
    { txBldr := txBldr, broadcastAttempted := false,
      err := some (DKGErr.validateBasicFailed e) }
  | none =>
    let bldr2 : TxBuilder := { txBldr with sequence := (txBldr.sequence + 1) % UINT64 }
    match broadcast with
    | some e =>
      { txBldr := bldr2, broadcastAttempted := true,
        err := some (DKGErr.broadcastFailed e) }
    | none => { txBldr := bldr2, broadcastAttempted := true, err := none }

/-- C3: every call of sendMsg that passes ValidateBasic increments the tx
builder sequence number by exactly one, whether the broadcast succeeds or
fails (the sequence advances on submission, not on inclusion). -/
theorem sendMsg_increments_sequence (txBldr : TxBuilder) (broadcast : Option Nat)
    (hseq : txBldr.sequence + 1 < UINT64) :
    (sendMsg txBldr none broadcast).txBldr.sequence = txBldr.sequence + 1 := by
  cases broadcast <;> simp [sendMsg, Nat.mod_eq_of_lt hseq]

/-- Witness for C3 at a concrete builder, for a failing and for a succeeding
broadcast. -/
theorem sendMsg_increments_sequence_witness :
    (5 : Nat) + 1 < UINT64
    ∧ (sendMsg { accountNumber := 1, sequence := 5 } none (some 3)).txBldr.sequence = 5 + 1
    ∧ (sendMsg { accountNumber := 1, sequence := 5 } none none).txBldr.sequence = 5 + 1 :=
  ⟨by decide,
   sendMsg_increments_sequence { accountNumber := 1, sequence := 5 } (some 3) (by decide),
   sendMsg_increments_sequence { accountNumber := 1, sequence := 5 } none (by decide)⟩

/-- C10: when ValidateBasic fails, sendMsg returns the wrapped validation
error without attempting a broadcast and with the tx builder (hence its
sequence number) unchanged. -/
theorem sendMsg_validateBasic_fail_no_effect (txBldr : TxBuilder) (e : Nat)
    (broadcast : Option Nat) :
    sendMsg txBldr (some e) broadcast
      = { txBldr := txBldr, broadcastAttempted := false,
          err := some (DKGErr.validateBasicFailed e) } := rfl

/-! ## Off-chain coordinator (OffChainDKG) -/

/-- An entry of the round registry: a dealer, or none for the nil tombstone
the source stores after a round is retired. -/
abbrev RegEntry := Option Dealer

/-- The round registry map[int]Dealer, as an association list with unique
keys; the key order is irrelevant to lookup and assignment. -/
abbrev Registry := List (Int × RegEntry)

/-- Go map lookup: none when the key is absent, some v when the key is
present (v itself may be the nil dealer). -/
def regLookup (reg : Registry) (k : Int) : Option RegEntry :=
  (reg.find? (fun p => p.1 == k)).map (fun p => p.2)

/-- Go map assignment: replace the value when the key is present, otherwise
add the binding. -/
def regInsert (reg : Registry) (k : Int) (v : RegEntry) : Registry :=
  if reg.any (fun p => p.1 == k) then
    reg.map (fun p => if p.1 == k then (k, v) else p)
  else
    reg ++ [(k, v)]

/-- The loop HandleOffChainShare runs once the verifier is ready: for every
key of the registry smaller than the winning round id it assigns nil at key
msg.RoundID, exactly as the source does (the write target is the winning
round id, not the iterated key). -/
def killOlderRounds (reg : Registry) (winner : Int) : Registry :=
  (reg.map (fun p => p.1)).foldl
    (fun acc roundID => if roundID < winner then regInsert acc winner none else acc)
    reg

/-- The BlocksAhead constant of the off-chain package. -/
def BlocksAhead : Int := 20

/-- The DefaultDKGNumBlocks constant of the off-chain package. -/
def DefaultDKGNumBlocks : Int := 100

/-- The fields of OffChainDKG read or written by the embedded operations. -/
structure OffChainState where
  verifier : Option Verifier
  nextVerifier : Option Verifier
  changeHeight : Int
  dkgRoundToDealer : Registry
  dkgRoundID : Int
  dkgNumBlocks : Int

/-- Events fired on the event switch by the off-chain coordinator. -/
inductive Event
  | dkgStart (roundID : Int)
  | dkgData
  | dkgSuccessful (changeHeight : Int)
  | dkgKeyChange (height : Int)
  deriving DecidableEq

/-- Observable outcome of HandleOffChainShare: the new coordinator state, the
returned switchToOnChain flag, the validators handed to slashLosers, the
events fired, and whether the call panicked (dealer.Start failed). -/
structure HandleResult where
  state : OffChainState
  switchToOnChain : Bool
  slashed : List Validator
  events : List Event
  panicked : Bool

/-- The switch on msg.Type inside HandleOffChainShare dispatching to the
dealer phase handler. -/
def dispatchHandler (d : Dealer) (msg : DKGData) : Option Nat :=
  match msg.type with
  | DKGDataType.pubKey => d.handleDKGPubKey msg
  | DKGDataType.deal => d.handleDKGDeal msg
  | DKGDataType.response => d.handleDKGResponse msg
  | DKGDataType.justification => d.handleDKGJustification msg
  | DKGDataType.commits => d.handleDKGCommit msg
  | DKGDataType.complaint => d.handleDKGComplaint msg
  | DKGDataType.reconstructCommit => d.handleDKGReconstructCommit msg

/-- The tail of HandleOffChainShare once a live dealer for msg.RoundID is at
hand: verify the message, dispatch it to the phase handler, then consult
dealer.GetVerifier. Go % on int64 is truncated division remainder, Int.tmod. -/
def handleWithDealer (st : OffChainState) (d : Dealer) (msg : DKGData)
    (height : Int) : HandleResult :=
  match d.verifyMessage msg with
  | some _ =>
    { state := st, switchToOnChain := false, slashed := [], events := [],
      panicked := false }
  | none =>
    match dispatchHandler d msg with
    | some _ =>
      { state := { st with dkgRoundToDealer := regInsert st.dkgRoundToDealer msg.roundID none },
        switchToOnChain := false, slashed := d.getLosers, events := [],
        panicked := false }
    | none =>
      match d.getVerifier with
      | Except.error GetVerifierErr.notReady =>
        { state := st, switchToOnChain := false, slashed := [], events := [],
          panicked := false }
      | Except.error (GetVerifierErr.other _) =>
        { state := { st with dkgRoundToDealer := regInsert st.dkgRoundToDealer msg.roundID none },
          switchToOnChain := true, slashed := d.getLosers, events := [],
          panicked := false }
      | Except.ok v =>
        let ch := (height + BlocksAhead) - Int.tmod (height + BlocksAhead) 5
        { state := { st with
            dkgRoundToDealer := killOlderRounds st.dkgRoundToDealer msg.roundID,
            nextVerifier := some v,
            changeHeight := ch },
          switchToOnChain := false, slashed := [],
          events := [Event.dkgSuccessful ch], panicked := false }

/-- OffChainDKG.HandleOffChainShare: look the round up in the registry,
construct and start a fresh dealer when the round is absent (nd is the dealer
m.newDKGDealer would build), drop the message when the entry is the nil
tombstone, and otherwise continue with handleWithDealer. -/
def HandleOffChainShare (st : OffChainState) (msg : DKGData) (height : Int)
    (nd : Dealer) : HandleResult :=
  match regLookup st.dkgRoundToDealer msg.roundID with
  | some none =>
    { state := st, switchToOnChain := false, slashed := [], events := [],
      panicked := false }
  | some (some d) => handleWithDealer st d msg height
  | none =>
    let st1 := { st with dkgRoundToDealer := regInsert st.dkgRoundToDealer msg.roundID (some nd) }
    match nd.start with
    | some _ =>
      { state := st1, switchToOnChain := false, slashed := [], events := [],
        panicked := true }
    | none => handleWithDealer st1 nd msg height

/-- The dealer HandleOffChainShare will use for msg: the registry entry when
live, the freshly constructed dealer when the round is absent, and none when
the round is tombstoned. -/
def dealerFor (st : OffChainState) (msg : DKGData) (nd : Dealer) : Option Dealer :=
  match regLookup st.dkgRoundToDealer msg.roundID with
  | some none => none
  | some (some d) => some d
  | none => some nd

/-- Observable outcome of OffChainDKG.startRound. -/
structure StartRoundResult where
  state : OffChainState
  events : List Event
  startErr : Option Nat

/-- OffChainDKG.startRound: bump the round id; when the registry has no entry
for it, register and start a fresh dealer (nd) and fire EventDKGStart. -/
def startRound (st : OffChainState) (nd : Dealer) : StartRoundResult :=
  let rid := st.dkgRoundID + 1
  let st1 := { st with dkgRoundID := rid }
  match regLookup st1.dkgRoundToDealer rid with
  | some _ => { state := st1, events := [], startErr := none }
  | none =>
    { state := { st1 with dkgRoundToDealer := regInsert st1.dkgRoundToDealer rid (some nd) },
      events := [Event.dkgStart rid], startErr := nd.start }

/-- Observable outcome of OffChainDKG.CheckDKGTime. -/
structure CheckResult where
  state : OffChainState
  events : List Event
  calledStartRound : Bool
  panicked : Bool

/-- The first conditional of CheckDKGTime: when height equals changeHeight,
promote the next verifier, clear it, zero changeHeight and fire
EventDKGKeyChange. -/
def swapStep (st : OffChainState) (height : Int) : OffChainState × List Event :=
  if st.changeHeight = height then
    ({ st with verifier := st.nextVerifier, nextVerifier := none, changeHeight := 0 },
     [Event.dkgKeyChange height])
  else (st, ([] : List Event))

/-- OffChainDKG.CheckDKGTime: run the verifier swap conditional, then, when
height > 1 and height mod dkgNumBlocks is zero (Go % is Int.tmod), invoke
startRound, panicking if the dealer fails to start. -/
def CheckDKGTime (st : OffChainState) (height : Int) (nd : Dealer) : CheckResult :=
  if 1 < height ∧ Int.tmod height st.dkgNumBlocks = 0 then
    { state := (startRound (swapStep st height).1 nd).state,
      events := (swapStep st height).2 ++ (startRound (swapStep st height).1 nd).events,
      calledStartRound := true,
      panicked := ((startRound (swapStep st height).1 nd).startErr).isSome }
  else
    { state := (swapStep st height).1, events := (swapStep st height).2,
      calledStartRound := false, panicked := false }

/-- DKGOption mutators passed to NewOffChainDKG. -/
abbrev DKGOption := OffChainState → OffChainState

/-- The WithVerifier option. -/
def WithVerifier (v : Verifier) : DKGOption :=
  fun st => { st with verifier := some v }

/-- The WithDKGNumBlocks option. -/
def WithDKGNumBlocks (numBlocks : Int) : DKGOption :=
  fun st => { st with dkgNumBlocks := numBlocks }

/-- NewOffChainDKG: build the initial state (dkgNumBlocks starts at the
default), apply the options in order, then coerce a zero dkgNumBlocks back to
the default. -/
def NewOffChainDKG (options : List DKGOption) : OffChainState :=
  let dkg : OffChainState :=
    { verifier := none, nextVerifier := none, changeHeight := 0,
      dkgRoundToDealer := [], dkgRoundID := 0,
      dkgNumBlocks := DefaultDKGNumBlocks }
  let dkg := options.foldl (fun st o => o st) dkg
  if dkg.dkgNumBlocks = 0 then { dkg with dkgNumBlocks := DefaultDKGNumBlocks }
  else dkg

/-! ## Spec-side description of the ProcessBlock bucket loop

The following definitions follow the words of the specification, not the
source: the fixed phase order, the handler correspondence, and a single fold
that dispatches every fetched message of each bucket in order and processes
nothing further once an error has occurred. They exist to be compared with
processTypes / ProcessBlock, which were translated from the source. -/

/-- The fixed order of the seven phases as listed by the spec. -/
def specOrder : List DKGDataType :=
  [DKGDataType.pubKey, DKGDataType.deal, DKGDataType.response,
   DKGDataType.justification, DKGDataType.commits, DKGDataType.complaint,
   DKGDataType.reconstructCommit]

/-- The corresponding dealer handler for each phase, as the spec states it. -/
def specHandlerFor (t : DKGDataType) (d : Dealer) : DKGData → Option Nat :=
  match t with
  | DKGDataType.pubKey => d.handleDKGPubKey
  | DKGDataType.deal => d.handleDKGDeal
  | DKGDataType.response => d.handleDKGResponse
  | DKGDataType.justification => d.handleDKGJustification
  | DKGDataType.commits => d.handleDKGCommit
  | DKGDataType.complaint => d.handleDKGComplaint
  | DKGDataType.reconstructCommit => d.handleDKGReconstructCommit

/-- One spec-side dispatch: once an error has occurred nothing further is
processed; otherwise the message goes to the corresponding handler and the
dispatch is recorded. -/
def specDispatchStep (d : Dealer) (t : DKGDataType)
    (acc : Option DKGErr × List (DKGDataType × DKGData)) (m : DKGData) :
    Option DKGErr × List (DKGDataType × DKGData) :=
  match acc with
  | (some e, tr) => (some e, tr)
  | (none, tr) =>
    match specHandlerFor t d m with
    | some e => (some (DKGErr.handleFailed e), tr ++ [(t, m)])
    | none => (none, tr ++ [(t, m)])

/-- One spec-side bucket: unless an error has already occurred, fetch the
bucket (a failing fetch is the wrapped query error) and dispatch every
fetched message in order. -/
def specBucketStep (d : Dealer) (q : Queries)
    (acc : Option DKGErr × List (DKGDataType × DKGData)) (t : DKGDataType) :
    Option DKGErr × List (DKGDataType × DKGData) :=
  match acc with
  | (some e, tr) => (some e, tr)
  | (none, tr) =>
    match q t with
    | Except.error e => (some (DKGErr.getMessagesFailed e), tr)
    | Except.ok msgs => msgs.foldl (specDispatchStep d t) (none, tr)

/-- The spec description of the ProcessBlock bucket loop: visit the seven
buckets in the fixed order, dispatch every fetched message to the
corresponding handler, stop at the first query or handler error. -/
def specLoop (d : Dealer) (q : Queries) :
    Option DKGErr × List (DKGDataType × DKGData) :=
  specOrder.foldl (specBucketStep d q) (none, [])

lemma foldl_specDispatchStep_error (d : Dealer) (t : DKGDataType)
    (msgs : List DKGData) (e : DKGErr) (tr : List (DKGDataType × DKGData)) :
    msgs.foldl (specDispatchStep d t) (some e, tr) = (some e, tr) := by
  induction msgs with
  | nil => rfl
  | cons m ms ih => simpa [specDispatchStep] using ih

lemma specHandlerFor_eq_selectHandler (t : DKGDataType) (d : Dealer) :
    specHandlerFor t d = selectHandler d t := by
  cases t <;> rfl

lemma foldl_specDispatchStep (d : Dealer) (t : DKGDataType)
    (msgs : List DKGData) (tr : List (DKGDataType × DKGData)) :
    msgs.foldl (specDispatchStep d t) (none, tr)
      = match handleMsgs (selectHandler d t) msgs with
        | (some e, tr2) => (some (DKGErr.handleFailed e), tr ++ tr2.map (fun m => (t, m)))
        | (none, tr2) => (none, tr ++ tr2.map (fun m => (t, m))) := by
  induction msgs generalizing tr with
  | nil => simp [handleMsgs]
  | cons m ms ih =>
    rw [List.foldl_cons]
    cases hm : selectHandler d t m with
    | some e =>
      have hstep : specDispatchStep d t (none, tr) m
          = (some (DKGErr.handleFailed e), tr ++ [(t, m)]) := by
        simp [specDispatchStep, specHandlerFor_eq_selectHandler, hm]
      rw [hstep, foldl_specDispatchStep_error]
      simp [handleMsgs, hm]
    | none =>
      have hstep : specDispatchStep d t (none, tr) m = (none, tr ++ [(t, m)]) := by
        simp [specDispatchStep, specHandlerFor_eq_selectHandler, hm]
      rw [hstep, ih]
      rcases hms : handleMsgs (selectHandler d t) ms with ⟨r, tr2⟩
      cases r <;> simp [handleMsgs, hm, hms]

lemma foldl_specBucketStep_error (d : Dealer) (q : Queries)
    (l : List DKGDataType) (e : DKGErr) (tr : List (DKGDataType × DKGData)) :
    l.foldl (specBucketStep d q) (some e, tr) = (some e, tr) := by
  induction l with
  | nil => rfl
  | cons t ts ih => simpa [specBucketStep] using ih

lemma foldl_specBucketStep (d : Dealer) (q : Queries)
    (l : List DKGDataType) (tr : List (DKGDataType × DKGData)) :
    l.foldl (specBucketStep d q) (none, tr)
      = ((processTypes d q l).1, tr ++ (processTypes d q l).2) := by
  induction l generalizing tr with
  | nil => simp [processTypes]
  | cons t ts ih =>
    rw [List.foldl_cons]
    cases hq : q t with
    | error e =>
      have hstep : specBucketStep d q (none, tr) t
          = (some (DKGErr.getMessagesFailed e), tr) := by
        simp [specBucketStep, hq]
      rw [hstep, foldl_specBucketStep_error]
      simp [processTypes, hq]
    | ok msgs =>
      have hstep : specBucketStep d q (none, tr) t
          = msgs.foldl (specDispatchStep d t) (none, tr) := by
        simp [specBucketStep, hq]
      rw [hstep, foldl_specDispatchStep]
      rcases hms : handleMsgs (selectHandler d t) msgs with ⟨r, tr2⟩
      cases r with
      | some e =>
        rw [foldl_specBucketStep_error]
        simp [processTypes, hq, hms]
      | none =>
        rw [ih]
        rcases hp : processTypes d q ts with ⟨r2, tr3⟩
        simp [processTypes, hq, hms, hp]

/-- C5: ProcessBlock visits the seven buckets in exactly the fixed order,
dispatching every fetched message of each bucket to the matching dealer
handler, and any query or handler error terminates the call immediately with
that error paired with false and no further message dispatched: the source
loop coincides with the spec-side fold, and on error the returned pair is the
error with false. -/
theorem ProcessBlock_fixed_order_refines_spec (d : Dealer) (q : Queries) :
    processTypes d q typesList = specLoop d q
    ∧ ((specLoop d q).1.isSome = true →
        ProcessBlock d q = (((specLoop d q).1, false), (specLoop d q).2)) := by
  have hmain : specLoop d q = processTypes d q typesList := by
    have h := foldl_specBucketStep d q typesList []
    simpa [specLoop, specOrder, typesList] using h
  refine ⟨hmain.symm, ?_⟩
  intro hsome
  rw [hmain] at hsome ⊢
  rcases hp : processTypes d q typesList with ⟨r, tr⟩
  rw [hp] at hsome
  cases r with
  | none => simp at hsome
  | some e => simp [ProcessBlock, hp]

/-- C6: after a clean pass over all seven buckets, ProcessBlock maps the
GetVerifier outcome to (nil, false) for the not-ready sentinel, (err, false)
for any other error, and (nil, true) for a ready verifier. -/
theorem ProcessBlock_getVerifier_outcomes (d : Dealer) (q : Queries)
    (h : (processTypes d q typesList).1 = none) :
    (ProcessBlock d q).1
      = (match d.getVerifier with
         | Except.error GetVerifierErr.notReady => (none, false)
         | Except.error (GetVerifierErr.other e) => (some (DKGErr.roundFailed e), false)
         | Except.ok _ => (none, true)) := by
  rcases hp : processTypes d q typesList with ⟨r, tr⟩
  rw [hp] at h
  simp only at h
  subst h
  rcases hv : d.getVerifier with e | v
  · cases e <;> simp [ProcessBlock, hp, hv]
  · simp [ProcessBlock, hp, hv]

/-! ## Arithmetic facts about the change-height formula -/

lemma tmod_five_le_four (x : Int) : Int.tmod x 5 ≤ 4 := by
  have h := Int.tmod_lt_of_pos x (show (0 : Int) < 5 by norm_num)
  omega

lemma five_dvd_sub_tmod (x : Int) : 5 ∣ (x - Int.tmod x 5) :=
  ⟨x.tdiv 5, by rw [Int.tmod_def]; ring⟩

/-! ## Theorems about the off-chain coordinator -/

lemma handleWithDealer_ready (st : OffChainState) (d : Dealer) (msg : DKGData)
    (height : Int) (v : Verifier)
    (hver : d.verifyMessage msg = none)
    (hhandle : dispatchHandler d msg = none)
    (hready : d.getVerifier = Except.ok v) :
    (handleWithDealer st d msg height).state.changeHeight
      = (height + BlocksAhead) - Int.tmod (height + BlocksAhead) 5 := by
  simp [handleWithDealer, hver, hhandle, hready]

lemma HandleOffChainShare_changeHeight_eq (st : OffChainState) (msg : DKGData)
    (height : Int) (nd d : Dealer) (v : Verifier)
    (hdl : dealerFor st msg nd = some d)
    (hstart : nd.start = none)
    (hver : d.verifyMessage msg = none)
    (hhandle : dispatchHandler d msg = none)
    (hready : d.getVerifier = Except.ok v) :
    (HandleOffChainShare st msg height nd).state.changeHeight
      = (height + BlocksAhead) - Int.tmod (height + BlocksAhead) 5 := by
  rcases hl : regLookup st.dkgRoundToDealer msg.roundID with _ | ed
  · simp [dealerFor, hl] at hdl
    subst hdl
    simp only [HandleOffChainShare, hl, hstart]
    exact handleWithDealer_ready _ _ _ _ v hver hhandle hready
  · cases ed with
    | none => simp [dealerFor, hl] at hdl
    | some d0 =>
      simp [dealerFor, hl] at hdl
      subst hdl
      simp only [HandleOffChainShare, hl]
      exact handleWithDealer_ready _ _ _ _ v hver hhandle hready

/-- C2: whenever HandleOffChainShare obtains a verifier at height h, the
staged change height equals (h + 20) - ((h + 20) mod 5); it is divisible by
5, at least h + 16, and at height 77 it equals 95. -/
theorem HandleOffChainShare_changeHeight_spec (st : OffChainState)
    (msg : DKGData) (height : Int) (nd d : Dealer) (v : Verifier)
    (hdl : dealerFor st msg nd = some d)
    (hstart : nd.start = none)
    (hver : d.verifyMessage msg = none)
    (hhandle : dispatchHandler d msg = none)
    (hready : d.getVerifier = Except.ok v) :
    (HandleOffChainShare st msg height nd).state.changeHeight
        = (height + 20) - Int.tmod (height + 20) 5
    ∧ 5 ∣ (HandleOffChainShare st msg height nd).state.changeHeight
    ∧ height + 16 ≤ (HandleOffChainShare st msg height nd).state.changeHeight
    ∧ (HandleOffChainShare st msg 77 nd).state.changeHeight = 95 := by
  have hgen : ∀ h0 : Int, (HandleOffChainShare st msg h0 nd).state.changeHeight
      = (h0 + 20) - Int.tmod (h0 + 20) 5 := by
    intro h0
    have := HandleOffChainShare_changeHeight_eq st msg h0 nd d v hdl hstart hver hhandle hready
    simpa [BlocksAhead] using this
  refine ⟨hgen height, ?_, ?_, ?_⟩
  · rw [hgen height]
    exact five_dvd_sub_tmod (height + 20)
  · rw [hgen height]
    have := tmod_five_le_four (height + 20)
    omega
  · rw [hgen 77]
    decide

/-- C4: with a live dealer whose message verification succeeds, a failing
phase handler makes HandleOffChainShare slash the dealer losers, tombstone
the round entry and return false; a not-ready verifier after a successful
handler leaves the state unchanged and returns false; any other GetVerifier
error slashes the losers, tombstones the round and returns true. -/
theorem HandleOffChainShare_error_paths (st : OffChainState) (msg : DKGData)
    (height : Int) (nd d : Dealer)
    (hfound : regLookup st.dkgRoundToDealer msg.roundID = some (some d))
    (hver : d.verifyMessage msg = none) :
    ((dispatchHandler d msg).isSome = true →
       HandleOffChainShare st msg height nd
         = { state := { st with dkgRoundToDealer := regInsert st.dkgRoundToDealer msg.roundID none },
             switchToOnChain := false, slashed := d.getLosers, events := [],
             panicked := false })
    ∧ (dispatchHandler d msg = none →
       d.getVerifier = Except.error GetVerifierErr.notReady →
       HandleOffChainShare st msg height nd
         = { state := st, switchToOnChain := false, slashed := [], events := [],
             panicked := false })
    ∧ (dispatchHandler d msg = none → isFatalVerifierErr d.getVerifier = true →
       HandleOffChainShare st msg height nd
         = { state := { st with dkgRoundToDealer := regInsert st.dkgRoundToDealer msg.roundID none },
             switchToOnChain := true, slashed := d.getLosers, events := [],
             panicked := false }) := by
  refine ⟨?_, ?_, ?_⟩
  · intro h
    obtain ⟨e, he⟩ := Option.isSome_iff_exists.mp h
    simp [HandleOffChainShare, hfound, handleWithDealer, hver, he]
  · intro h1 h2
    simp [HandleOffChainShare, hfound, handleWithDealer, hver, h1, h2]
  · intro h1 h2
    rcases hv : d.getVerifier with e | v
    · cases e with
      | notReady => rw [hv] at h2; simp [isFatalVerifierErr] at h2
      | other e0 => simp [HandleOffChainShare, hfound, handleWithDealer, hver, h1, hv]
    · rw [hv] at h2; simp [isFatalVerifierErr] at h2

/-- C9: with a live dealer whose VerifyMessage fails, HandleOffChainShare
returns false and leaves the whole coordinator state unchanged. -/
theorem HandleOffChainShare_verify_fail_no_change (st : OffChainState)
    (msg : DKGData) (height : Int) (nd d : Dealer)
    (hfound : regLookup st.dkgRoundToDealer msg.roundID = some (some d))
    (hver : (d.verifyMessage msg).isSome = true) :
    HandleOffChainShare st msg height nd
      = { state := st, switchToOnChain := false, slashed := [], events := [],
          panicked := false } := by
  obtain ⟨e, he⟩ := Option.isSome_iff_exists.mp hver
  simp [HandleOffChainShare, hfound, handleWithDealer, he]

lemma startRound_preserves (st : OffChainState) (nd : Dealer) :
    (startRound st nd).state.verifier = st.verifier
    ∧ (startRound st nd).state.nextVerifier = st.nextVerifier
    ∧ (startRound st nd).state.changeHeight = st.changeHeight := by
  unfold startRound
  cases h : regLookup st.dkgRoundToDealer (st.dkgRoundID + 1) <;> simp [h]

/-- C7: CheckDKGTime invokes startRound exactly when height > 1 and
height mod dkgNumBlocks is zero (hence never at heights 0 and 1), and when
height equals the stored change height it promotes the next verifier, clears
it, zeroes the change height and fires EventDKGKeyChange(height). -/
theorem CheckDKGTime_spec (st : OffChainState) (height : Int) (nd : Dealer)
    (hpos : 0 < st.dkgNumBlocks) :
    (CheckDKGTime st height nd).calledStartRound
        = decide (1 < height ∧ Int.tmod height st.dkgNumBlocks = 0)
    ∧ (st.changeHeight = height →
        (CheckDKGTime st height nd).state.verifier = st.nextVerifier
        ∧ (CheckDKGTime st height nd).state.nextVerifier = none
        ∧ (CheckDKGTime st height nd).state.changeHeight = 0
        ∧ Event.dkgKeyChange height ∈ (CheckDKGTime st height nd).events)
    ∧ (CheckDKGTime st 0 nd).calledStartRound = false
    ∧ (CheckDKGTime st 1 nd).calledStartRound = false := by
  have hswap : st.changeHeight = height →
      swapStep st height
        = ({ st with verifier := st.nextVerifier, nextVerifier := none, changeHeight := 0 },
           [Event.dkgKeyChange height]) := by
    intro hc
    simp [swapStep, hc]
  refine ⟨?_, ?_, ?_, ?_⟩
  · by_cases hm : 1 < height ∧ Int.tmod height st.dkgNumBlocks = 0 <;>
      simp [CheckDKGTime, hm]
  · intro hc
    by_cases hm : 1 < height ∧ Int.tmod height st.dkgNumBlocks = 0
    · have hsp := startRound_preserves
        ({ st with verifier := st.nextVerifier, nextVerifier := none, changeHeight := 0 } : OffChainState) nd
      simp only [CheckDKGTime, if_pos hm, hswap hc]
      refine ⟨?_, ?_, ?_, ?_⟩
      · rw [hsp.1]
      · rw [hsp.2.1]
      · rw [hsp.2.2]
      · simp
    · simp [CheckDKGTime, if_neg hm, hswap hc]
  · have hm : ¬(1 < (0 : Int) ∧ Int.tmod 0 st.dkgNumBlocks = 0) := by
      intro hx
      exact absurd hx.1 (by norm_num)
    simp [CheckDKGTime, hm]
  · have hm : ¬(1 < (1 : Int) ∧ Int.tmod 1 st.dkgNumBlocks = 0) := by
      intro hx
      exact absurd hx.1 (by norm_num)
    simp [CheckDKGTime, hm]

/-- C8: constructing the off-chain coordinator with dkgNumBlocks configured
as zero yields the default 100; any nonzero configured value is kept. -/
theorem NewOffChainDKG_numBlocks_default (numBlocks : Int) :
    (NewOffChainDKG [WithDKGNumBlocks numBlocks]).dkgNumBlocks
      = if numBlocks = 0 then 100 else numBlocks := by
  by_cases h : numBlocks = 0 <;>
    simp [NewOffChainDKG, WithDKGNumBlocks, DefaultDKGNumBlocks, h]

/-! ## Concrete instances used for evaluation -/

/-- A concrete dealer: starts cleanly, verifies and absorbs every message,
verifier not yet ready, no losers. -/
def idleDealer : Dealer :=
  { start := none, verifyMessage := fun _ => none,
    handleDKGPubKey := fun _ => none, handleDKGDeal := fun _ => none,
    handleDKGResponse := fun _ => none, handleDKGJustification := fun _ => none,
    handleDKGCommit := fun _ => none, handleDKGComplaint := fun _ => none,
    handleDKGReconstructCommit := fun _ => none,
    getVerifier := Except.error GetVerifierErr.notReady, getLosers := [] }

/-- A concrete dealer whose verifier is ready. -/
def readyDealer : Dealer := { idleDealer with getVerifier := Except.ok 7 }

/-- A concrete dealer whose Deal handler fails and that reports losers. -/
def failDealer : Dealer :=
  { idleDealer with handleDKGDeal := fun _ => some 5, getLosers := [4, 9] }

/-- A concrete dealer whose message verification fails. -/
def badSigDealer : Dealer := { idleDealer with verifyMessage := fun _ => some 3 }

/-- A Deal message for round 2. -/
def round2Msg : DKGData :=
  { type := DKGDataType.deal, roundID := 2, addr := 0, signature := 0 }

/-- A state whose registry holds live dealers for rounds 1 and 2, round 2
being about to complete. -/
def twoRoundState : OffChainState :=
  { verifier := none, nextVerifier := none, changeHeight := 0,
    dkgRoundToDealer := [(1, some idleDealer), (2, some readyDealer)],
    dkgRoundID := 2, dkgNumBlocks := 100 }

/-- C1: the claimed retirement policy fails on the code. With live dealers
for rounds 1 and 2 and a round-2 message that completes the round, the
round-1 entry (the strictly older round) is left alive, while the entry of
the completed round 2 itself is set to nil: the loop writes nil at the
winning round id instead of at each older key it iterates over. -/
theorem HandleOffChainShare_tombstones_completed_round :
    regLookup (HandleOffChainShare twoRoundState round2Msg 77 idleDealer).state.dkgRoundToDealer 1
      = some (some idleDealer)
    ∧ regLookup (HandleOffChainShare twoRoundState round2Msg 77 idleDealer).state.dkgRoundToDealer 2
      = some none :=
  ⟨rfl, rfl⟩

/-- A Commits message for round 3. -/
def round3Msg : DKGData :=
  { type := DKGDataType.commits, roundID := 3, addr := 1, signature := 1 }

/-- A state with a single live, completing dealer for round 3. -/
def readyState : OffChainState :=
  { verifier := none, nextVerifier := none, changeHeight := 0,
    dkgRoundToDealer := [(3, some readyDealer)], dkgRoundID := 3,
    dkgNumBlocks := 100 }

/-- Witness for C2 at a concrete completing round, heights 10 and 77. -/
theorem HandleOffChainShare_changeHeight_spec_witness :
    dealerFor readyState round3Msg idleDealer = some readyDealer
    ∧ ((HandleOffChainShare readyState round3Msg 10 idleDealer).state.changeHeight
          = ((10 : Int) + 20) - Int.tmod (10 + 20) 5
       ∧ 5 ∣ (HandleOffChainShare readyState round3Msg 10 idleDealer).state.changeHeight
       ∧ (10 : Int) + 16 ≤ (HandleOffChainShare readyState round3Msg 10 idleDealer).state.changeHeight
       ∧ (HandleOffChainShare readyState round3Msg 77 idleDealer).state.changeHeight = 95) :=
  ⟨rfl, HandleOffChainShare_changeHeight_spec readyState round3Msg 10 idleDealer
    readyDealer 7 rfl rfl rfl rfl rfl⟩

/-- A Deal message for round 1. -/
def round1Msg : DKGData :=
  { type := DKGDataType.deal, roundID := 1, addr := 2, signature := 2 }

/-- A state with a single live dealer for round 1 whose Deal handler fails. -/
def failState : OffChainState :=
  { verifier := none, nextVerifier := none, changeHeight := 0,
    dkgRoundToDealer := [(1, some failDealer)], dkgRoundID := 1,
    dkgNumBlocks := 100 }

/-- Witness for C4 on the failing-handler branch at a concrete state. -/
theorem HandleOffChainShare_error_paths_witness :
    regLookup failState.dkgRoundToDealer round1Msg.roundID = some (some failDealer)
    ∧ (dispatchHandler failDealer round1Msg).isSome = true
    ∧ HandleOffChainShare failState round1Msg 10 idleDealer
        = { state := { failState with
              dkgRoundToDealer := regInsert failState.dkgRoundToDealer round1Msg.roundID none },
            switchToOnChain := false, slashed := failDealer.getLosers,
            events := [], panicked := false } :=
  ⟨rfl, rfl,
   (HandleOffChainShare_error_paths failState round1Msg 10 idleDealer failDealer rfl rfl).1 rfl⟩

/-- A state with a single live dealer for round 1 that rejects signatures. -/
def badSigState : OffChainState :=
  { verifier := none, nextVerifier := none, changeHeight := 0,
    dkgRoundToDealer := [(1, some badSigDealer)], dkgRoundID := 1,
    dkgNumBlocks := 100 }

/-- Witness for C9 at a concrete state. -/
theorem HandleOffChainShare_verify_fail_no_change_witness :
    regLookup badSigState.dkgRoundToDealer round1Msg.roundID = some (some badSigDealer)
    ∧ (badSigDealer.verifyMessage round1Msg).isSome = true
    ∧ HandleOffChainShare badSigState round1Msg 10 idleDealer
        = { state := badSigState, switchToOnChain := false, slashed := [],
            events := [], panicked := false } :=
  ⟨rfl, rfl,
   HandleOffChainShare_verify_fail_no_change badSigState round1Msg 10 idleDealer
     badSigDealer rfl rfl⟩

/-- A state with a staged verifier whose change height is 100. -/
def swapState : OffChainState :=
  { verifier := some 1, nextVerifier := some 2, changeHeight := 100,
    dkgRoundToDealer := [], dkgRoundID := 0, dkgNumBlocks := 100 }

/-- Witness for C7 at height 100 with change height 100, plus the skipped
heights 0 and 1. -/
theorem CheckDKGTime_spec_witness :
    0 < swapState.dkgNumBlocks
    ∧ (CheckDKGTime swapState 100 idleDealer).calledStartRound = true
    ∧ (CheckDKGTime swapState 100 idleDealer).state.verifier = swapState.nextVerifier
    ∧ (CheckDKGTime swapState 100 idleDealer).state.nextVerifier = none
    ∧ (CheckDKGTime swapState 100 idleDealer).state.changeHeight = 0
    ∧ Event.dkgKeyChange 100 ∈ (CheckDKGTime swapState 100 idleDealer).events
    ∧ (CheckDKGTime swapState 0 idleDealer).calledStartRound = false
    ∧ (CheckDKGTime swapState 1 idleDealer).calledStartRound = false := by
  have h := CheckDKGTime_spec swapState 100 idleDealer (by decide)
  have hc := h.2.1 rfl
  exact ⟨by decide, (h.1).trans (by decide), hc.1, hc.2.1, hc.2.2.1, hc.2.2.2,
    h.2.2.1, h.2.2.2⟩

/-- A PubKey message for round 1. -/
def pubMsg : DKGData :=
  { type := DKGDataType.pubKey, roundID := 1, addr := 3, signature := 3 }

/-- A first Deal message for round 1. -/
def dealMsgA : DKGData :=
  { type := DKGDataType.deal, roundID := 1, addr := 4, signature := 4 }

/-- A second Deal message for round 1. -/
def dealMsgB : DKGData :=
  { type := DKGDataType.deal, roundID := 1, addr := 5, signature := 5 }

/-- A Response message for round 1. -/
def respMsg : DKGData :=
  { type := DKGDataType.response, roundID := 1, addr := 6, signature := 6 }

/-- A concrete query environment: one PubKey message, two Deal messages, one
Response message, empty later buckets. -/
def sampleQueries : Queries := fun t =>
  match t with
  | DKGDataType.pubKey => Except.ok [pubMsg]
  | DKGDataType.deal => Except.ok [dealMsgA, dealMsgB]
  | DKGDataType.response => Except.ok [respMsg]
  | _ => Except.ok []

/-- Witness for C5 with a dealer failing on the first Deal message. -/
theorem ProcessBlock_fixed_order_refines_spec_witness :
    processTypes failDealer sampleQueries typesList = specLoop failDealer sampleQueries
    ∧ (specLoop failDealer sampleQueries).1.isSome = true
    ∧ ProcessBlock failDealer sampleQueries
        = (((specLoop failDealer sampleQueries).1, false),
           (specLoop failDealer sampleQueries).2) :=
  ⟨(ProcessBlock_fixed_order_refines_spec failDealer sampleQueries).1, rfl,
   (ProcessBlock_fixed_order_refines_spec failDealer sampleQueries).2 rfl⟩

/-- An empty query environment. -/
def emptyQueries : Queries := fun _ => Except.ok []

/-- Witness for C6 with a ready dealer over empty buckets. -/
theorem ProcessBlock_getVerifier_outcomes_witness :
    (processTypes readyDealer emptyQueries typesList).1 = none
    ∧ (ProcessBlock readyDealer emptyQueries).1 = (none, true) :=
  ⟨rfl, (ProcessBlock_getVerifier_outcomes readyDealer emptyQueries rfl).trans rfl⟩

end Dkg
